import Mathlib

/-!
Verification development for the solar-pump chatbot repository.

Shallow embedding conventions:
- JavaScript numbers are modelled as rationals; all arithmetic in the
  sizing code is exact decimal arithmetic on small values, so no
  floating-point rounding is relevant to the properties below.
- Fields that are "undefined until assigned" in JavaScript are modelled
  as Option values; JavaScript truthiness of a numeric field o is
  "o.getD 0 is nonzero" (undefined and 0 are both falsy).
- Boolean fields that the code only ever reads through truthiness
  (sandyWater, drawdownEstimated, directToStockTank) are modelled as
  Bool with default false, which is truth-equivalent to undefined.
-/

namespace SolarPump

/-- JavaScript truthiness for an optional natural-number field:
undefined and 0 are falsy, everything else is truthy. -/
def truthyN (o : Option Nat) : Bool := o.getD 0 ≠ 0

/-- JavaScript truthiness for an optional rational field. -/
def truthyQ (o : Option ℚ) : Bool := o.getD 0 ≠ 0

/-! ## The pump catalog (src/pumpData.js, lines 2-93)

Each model has a performance curve flowRateByHead: a list of
(head, flowRate) control points with strictly increasing head, starting
at head 0 and ending at head = maxHead. -/

/-- One control point of a pump performance curve. -/
structure CurvePoint where
  head : ℚ
  flowRate : ℚ
deriving DecidableEq, Repr

/-- One pump model from the static catalog in pumpData.js. -/
structure PumpModel where
  name : String
  stages : Nat
  voltage : Nat
  flowRateByHead : List CurvePoint
  maxFlow : ℚ
  maxHead : ℚ
  powerRequired : Nat
deriving DecidableEq, Repr

def pump1S : PumpModel :=
  { name := "1S48V50C", stages := 1, voltage := 48
    flowRateByHead := [⟨0, 5⟩, ⟨12.5, 5⟩, ⟨22.5, 4⟩, ⟨30, 3⟩, ⟨37.5, 2⟩, ⟨40, 1⟩]
    maxFlow := 5, maxHead := 40, powerRequired := 53 }

def pump2S : PumpModel :=
  { name := "2S48V50C", stages := 2, voltage := 48
    flowRateByHead := [⟨0, 5⟩, ⟨25, 5⟩, ⟨45, 4⟩, ⟨60, 3⟩, ⟨75, 2⟩, ⟨80, 1⟩]
    maxFlow := 5, maxHead := 80, powerRequired := 106 }

def pump3S : PumpModel :=
  { name := "3S48V50C", stages := 3, voltage := 48
    flowRateByHead := [⟨0, 5⟩, ⟨37.5, 5⟩, ⟨67.5, 4⟩, ⟨90, 3⟩, ⟨112.5, 2⟩, ⟨120, 1⟩]
    maxFlow := 5, maxHead := 120, powerRequired := 159 }

def pump4S : PumpModel :=
  { name := "4S48V50C", stages := 4, voltage := 48
    flowRateByHead := [⟨0, 5⟩, ⟨50, 5⟩, ⟨90, 4⟩, ⟨120, 3⟩, ⟨150, 2⟩, ⟨160, 1⟩]
    maxFlow := 5, maxHead := 160, powerRequired := 212 }

def pump5S : PumpModel :=
  { name := "5S48V50C", stages := 5, voltage := 48
    flowRateByHead := [⟨0, 5⟩, ⟨62.5, 5⟩, ⟨112.5, 4⟩, ⟨150, 3⟩, ⟨187.5, 2⟩, ⟨200, 1⟩]
    maxFlow := 5, maxHead := 200, powerRequired := 265 }

def pump6S : PumpModel :=
  { name := "6S48V50C", stages := 6, voltage := 48
    flowRateByHead := [⟨0, 5⟩, ⟨75, 5⟩, ⟨135, 4⟩, ⟨180, 3⟩, ⟨225, 2⟩, ⟨240, 1⟩]
    maxFlow := 5, maxHead := 240, powerRequired := 318 }

/-- The catalog, in the iteration order of Object.entries (insertion order). -/
def pumpDataTable : List PumpModel :=
  [pump1S, pump2S, pump3S, pump4S, pump5S, pump6S]

/-! ## Curve interpolation and pump selection (src/pumpData.js, lines 96-135) -/

/-- The inner loop of findSuitablePump: walk the consecutive pairs of the
curve, and at the first pair (point1, point2) with
point1.head <= requiredHead <= point2.head return the linear
interpolation point1.flowRate + slope * (requiredHead - point1.head)
with slope = (point2.flowRate - point1.flowRate) / (point2.head - point1.head);
if no pair brackets requiredHead the initial value 0 is kept. -/
def flowAtHead : List CurvePoint → ℚ → ℚ
  | p1 :: p2 :: rest, h =>
      if p1.head ≤ h ∧ h ≤ p2.head then
        p1.flowRate + ((p2.flowRate - p1.flowRate) / (p2.head - p1.head)) * (h - p1.head)
      else flowAtHead (p2 :: rest) h
  | _, _ => 0

/-- An entry pushed onto suitablePumps by findSuitablePump. -/
structure SuitEntry where
  model : String
  stages : Nat
  flowRate : ℚ
  powerRequired : Nat
deriving DecidableEq, Repr

def mkEntry (m : PumpModel) (tdh : ℚ) : SuitEntry :=
  { model := m.name, stages := m.stages
    flowRate := flowAtHead m.flowRateByHead tdh, powerRequired := m.powerRequired }

/-- The filtering loop of findSuitablePump over a list of models: skip a
model when requiredHead > maxHead ("continue"), otherwise push it when
the interpolated flow rate is at least requiredGPM. -/
def suitableOver (models : List PumpModel) (requiredGPM requiredHead : ℚ) : List SuitEntry :=
  models.foldr
    (fun m acc =>
      if requiredHead > m.maxHead then acc
      else if flowAtHead m.flowRateByHead requiredHead ≥ requiredGPM then
        mkEntry m requiredHead :: acc
      else acc)
    []

/-- The suitablePumps list built by findSuitablePump. -/
def suitablePumps (requiredGPM requiredHead : ℚ) : List SuitEntry :=
  suitableOver pumpDataTable requiredGPM requiredHead

/-- The body of the keep-the-fewest-stages accumulation: take the new
element when nothing is selected yet or when it has strictly smaller
rank, otherwise keep the current selection. -/
def minStep (rank : α → Nat) (acc : Option α) (x : α) : Option α :=
  match acc with
  | none => some x
  | some b => if rank x < rank b then some x else acc

lemma minStep_none (rank : α → Nat) (x : α) : minStep rank none x = some x := rfl

lemma minStep_some (rank : α → Nat) (b x : α) :
    minStep rank (some b) x = if rank x < rank b then some x else some b := rfl

/-- First element of a list attaining the minimal rank. JavaScript
Array.prototype.sort is stable (ES2019), so
suitablePumps.sort((a, b) => a.stages - b.stages)[0] is exactly the
first element of suitablePumps with the fewest stages; this function
computes that element directly. -/
def firstMinBy (rank : α → Nat) : List α → Option α
  | [] => none
  | x :: xs =>
      match firstMinBy rank xs with
      | none => some x
      | some b => if rank x ≤ rank b then some x else some b

/-- findSuitablePump from pumpData.js: filter the catalog against the
required flow and head, then return the suitable entry with the fewest
stages (undefined, i.e. none, when no model qualifies). -/
def findSuitablePump (requiredGPM requiredHead : ℚ) : Option SuitEntry :=
  firstMinBy (fun e => e.stages) (suitablePumps requiredGPM requiredHead)

/-- The spec-side interpolation formula, exactly as the specification
writes it: flow = p1.flow + (p2.flow - p1.flow) × (TDH - p1.head) / (p2.head - p1.head). -/
def interpSpec (p1 p2 : CurvePoint) (tdh : ℚ) : ℚ :=
  p1.flowRate + (p2.flowRate - p1.flowRate) * (tdh - p1.head) / (p2.head - p1.head)

/-- p1 and p2 are consecutive points of the curve c. -/
def AdjPair (c : List CurvePoint) (p1 p2 : CurvePoint) : Prop :=
  ∃ i, c.get? i = some p1 ∧ c.get? (i + 1) = some p2

/-! ## Free-text matchers

The main server (part_000) extracts typed values from the user message
with regular expressions over the lower-cased message. Each pattern used
there is of one of two shapes, which we implement directly over the
character list of the message:
- a leftmost maximal digit run whose following text satisfies a
  condition (for example whitespace followed by a unit word), the run
  read with parseInt or parseFloat;
- case-insensitive substring containment of a fixed keyword.
The regex engine tries start positions left to right; inside a digit
run, a shorter run leaves a digit as the next character, which none of
the follow conditions accept, so only maximal runs can match and the
scan below is equivalent. -/

def isWs (c : Char) : Bool := c = ' ' ∨ c = '\t' ∨ c = '\n' ∨ c = '\r'

/-- ASCII lower-casing of a message, as String.prototype.toLowerCase
acts on the ASCII inputs the matchers care about. -/
def asciiLowerChar (c : Char) : Char :=
  if 'A' ≤ c ∧ c ≤ 'Z' then Char.ofNat (c.toNat + 32) else c

def lowerAscii (s : String) : List Char := s.toList.map asciiLowerChar

/-- Value of a digit run, as parseInt reads it. -/
def digitsToNat (l : List Char) : Nat :=
  l.foldl (fun n c => 10 * n + (c.toNat - 48)) 0

/-- Substring containment, as String.prototype.includes. -/
def containsSub (needle : List Char) : List Char → Bool
  | [] => needle.isEmpty
  | c :: rest => needle.isPrefixOf (c :: rest) || containsSub needle rest

def containsKw (lm : List Char) (kw : String) : Bool := containsSub kw.toList lm

/-- Leftmost maximal digit run whose following text satisfies ok,
read with parseInt. -/
def firstNumBy (ok : List Char → Bool) : List Char → Option Nat
  | [] => none
  | c :: rest =>
      if c.isDigit then
        (if ok (rest.dropWhile Char.isDigit) then
          some (digitsToNat (c :: rest.takeWhile Char.isDigit))
        else firstNumBy ok rest)
      else firstNumBy ok rest

/-- Rational value of an integer digit run plus an optional fractional
digit run, as parseFloat reads a match of a \d+(\.\d+)? group. -/
def ratOfParts (intPart fracPart : List Char) : ℚ :=
  (digitsToNat intPart : ℚ) + (digitsToNat fracPart : ℚ) / (10 : ℚ) ^ fracPart.length

/-- Text following a \d+(\.\d+)? match that starts at a digit run:
drop the run, then a dot and a second run when present. -/
def afterRatRun (rest : List Char) : List Char :=
  match rest.dropWhile Char.isDigit with
  | '.' :: d :: tail => if d.isDigit then (d :: tail).dropWhile Char.isDigit else '.' :: d :: tail
  | other => other

/-- Fractional digits of a \d+(\.\d+)? match starting at a digit run. -/
def fracRun (rest : List Char) : List Char :=
  match rest.dropWhile Char.isDigit with
  | '.' :: d :: tail => if d.isDigit then d :: tail.takeWhile Char.isDigit else []
  | _ => []

/-- Leftmost maximal decimal number (with optional fraction) whose
following text satisfies ok, read with parseFloat. -/
def firstRatBy (ok : List Char → Bool) : List Char → Option ℚ
  | [] => none
  | c :: rest =>
      if c.isDigit then
        (if ok (afterRatRun rest) then
          some (ratOfParts (c :: rest.takeWhile Char.isDigit) (fracRun rest))
        else firstRatBy ok rest)
      else firstRatBy ok rest

/-- Follow condition of the custom-GPD pattern
(digits, optional whitespace, then "gallons per day"-style words or "gpd"):
acceptance only needs the prefix "gallon" or "gpd", the optional pieces
of the pattern extend the match without affecting acceptance. -/
def gpdOk (after : List Char) : Bool :=
  let a := after.dropWhile isWs
  "gallon".toList.isPrefixOf a || "gpd".toList.isPrefixOf a

/-- Follow condition of the custom-head pattern
(digits, optional whitespace, then ft/feet with optional head/lift/tdh,
or "total (dynamic) head", or "tdh"). -/
def headOk (after : List Char) : Bool :=
  let a := after.dropWhile isWs
  "ft".toList.isPrefixOf a || "feet".toList.isPrefixOf a || "tdh".toList.isPrefixOf a ||
    ("total".toList.isPrefixOf a &&
      (let b := (a.drop 5).dropWhile isWs
       "head".toList.isPrefixOf b ||
         ("dynamic".toList.isPrefixOf b &&
           "head".toList.isPrefixOf ((b.drop 7).dropWhile isWs))))

def gpdMatch (lm : List Char) : Option Nat := firstNumBy gpdOk lm

def headMatch (lm : List Char) : Option Nat := firstNumBy headOk lm

/-- First integer in the message, as message.match of a bare digit run. -/
def firstNat (lm : List Char) : Option Nat := firstNumBy (fun _ => true) lm

/-- First decimal number in the message. -/
def firstRat (lm : List Char) : Option ℚ := firstRatBy (fun _ => true) lm

/-- Digits followed (after optional whitespace) by "bath". -/
def bathMatch (lm : List Char) : Option Nat :=
  firstNumBy (fun a => "bath".toList.isPrefixOf (a.dropWhile isWs)) lm

/-- Decimal number followed (after optional whitespace) by acre words;
every alternative of (acre|ac|acres) begins with "ac" and "ac" itself is
an alternative, so acceptance is exactly the prefix "ac". -/
def acreMatch (lm : List Char) : Option ℚ :=
  firstRatBy (fun a => "ac".toList.isPrefixOf (a.dropWhile isWs)) lm

/-- Digits with "feet" or "ft" anywhere later on the line (the lazy
in-between part of the pattern accepts any characters). -/
def pipeLenMatch (lm : List Char) : Option Nat :=
  firstNumBy (fun a => containsSub "feet".toList a || containsSub "ft".toList a) lm

/-- Decimal number with an inch marker ("inch", "in" or a double quote)
anywhere later on the line; "inch" contains "in", so containment of "in"
covers both word forms. -/
def inchMatch (lm : List Char) : Option ℚ :=
  firstRatBy (fun a => containsSub "in".toList a || containsSub ['\x22'] a) lm

/-! ## Conversation state machine (part_000, lines 66-108 and 338-650) -/

inductive UsageType where
  | unknown | livestock | household | irrigation | other
deriving DecidableEq, Repr

inductive Stage where
  | greeting | usage_type | location
  | livestock_type | animal_count
  | people_count | fixtures_count
  | irrigation_area | irrigation_type | crop_type
  | well_depth | static_water | drawdown | elevation
  | pipe_info | storage_tank | water_quality | well_casing
  | summary | recommendation
  | custom_flow | custom_head
deriving DecidableEq, Repr

/-- The accumulating per-session record session.data. Fields that are
undefined until assigned are Option; booleans that the code only reads
through truthiness are Bool with default false. -/
structure CollectedData where
  usageType : UsageType := .unknown
  customGPD : Option Nat := none
  customHead : Option Nat := none
  location : Option String := none
  livestockType : Option String := none
  animalCount : Option Nat := none
  peopleCount : Option Nat := none
  fixturesInfo : Option String := none
  bathroomCount : Option Nat := none
  irrigationArea : Option ℚ := none
  irrigationType : Option String := none
  irrigationMethod : Option String := none
  cropType : Option String := none
  cropCategory : Option String := none
  wellDepth : Option ℚ := none
  staticWaterLevel : Option ℚ := none
  drawdownLevel : Option ℚ := none
  drawdownEstimated : Bool := false
  elevationGain : Option ℚ := none
  directToStockTank : Bool := false
  pipeLength : Option ℚ := none
  pipeSize : Option ℚ := none
  hasStorageTank : Option Bool := none
  sandyWater : Bool := false
  wellCasingSize : Option ℚ := none
deriving DecidableEq, Repr

/-- One chat session: the collected data and the current stage. -/
structure Session where
  data : CollectedData
  currentStage : Stage
deriving DecidableEq, Repr

/-- Custom-GPD extraction at the top of processUserInput (lines 342-347):
set customGPD from the pattern when a match exists and the field is
still falsy. -/
def applyGpdExtract (d : CollectedData) (lm : List Char) : CollectedData :=
  match gpdMatch lm with
  | some n => if truthyN d.customGPD then d else { d with customGPD := some n }
  | none => d

/-- Custom-head extraction (lines 349-353), same shape. -/
def applyHeadExtract (d : CollectedData) (lm : List Char) : CollectedData :=
  match headMatch lm with
  | some n => if truthyN d.customHead then d else { d with customHead := some n }
  | none => d

def hasLivestockKw (lm : List Char) : Bool :=
  ["livestock", "cattle", "cow", "horse", "sheep", "goat"].any (containsKw lm)

def hasHouseholdKwLong (lm : List Char) : Bool :=
  ["house", "home", "domestic", "drinking", "shower", "toilet"].any (containsKw lm)

def hasIrrigationKwLong (lm : List Char) : Bool :=
  ["irrigation", "crop", "garden", "farm", "field", "acre"].any (containsKw lm)

def hasHouseholdKwShort (lm : List Char) : Bool :=
  ["house", "home", "domestic", "drinking"].any (containsKw lm)

def hasIrrigationKwShort (lm : List Char) : Bool :=
  ["irrigation", "crop", "garden", "farm"].any (containsKw lm)

/-- Explicit usage-type classification (lines 354-380): runs only in the
GREETING and USAGE_TYPE stages. -/
def classifyUsage (stage : Stage) (d : CollectedData) (lm : List Char) : CollectedData :=
  if stage = .greeting ∨ stage = .usage_type then
    if hasLivestockKw lm then { d with usageType := .livestock }
    else if hasHouseholdKwLong lm then { d with usageType := .household }
    else if hasIrrigationKwLong lm then { d with usageType := .irrigation }
    else d
  else d

/-- The extraction phase of a turn: custom-GPD, custom-head, then the
stage-gated usage-type classification, on the lower-cased message. -/
def extractPhase (s : Session) (message : String) : CollectedData :=
  classifyUsage s.currentStage
    (applyHeadExtract (applyGpdExtract s.data (lowerAscii message)) (lowerAscii message))
    (lowerAscii message)

/-- The stage switch of processUserInput (lines 392-649), one case per
conversation stage. -/
def stageSwitch (stage : Stage) (d : CollectedData) (message : String) (lm : List Char) :
    Session :=
  match stage with
  | .greeting => ⟨d, .usage_type⟩
  | .usage_type =>
      if d.usageType ≠ .unknown then ⟨d, .location⟩
      else if hasLivestockKw lm then ⟨{ d with usageType := .livestock }, .location⟩
      else if hasHouseholdKwShort lm then ⟨{ d with usageType := .household }, .location⟩
      else if hasIrrigationKwShort lm then ⟨{ d with usageType := .irrigation }, .location⟩
      else ⟨d, .usage_type⟩
  | .location =>
      let d := { d with location := some message }
      match d.usageType with
      | .livestock => ⟨d, .livestock_type⟩
      | .household => ⟨d, .people_count⟩
      | .irrigation => ⟨d, .irrigation_area⟩
      | _ => ⟨d, .custom_flow⟩
  | .livestock_type => ⟨{ d with livestockType := some message }, .animal_count⟩
  | .animal_count => ⟨{ d with animalCount := some ((firstNat lm).getD 0) }, .well_depth⟩
  | .people_count => ⟨{ d with peopleCount := some ((firstNat lm).getD 0) }, .fixtures_count⟩
  | .fixtures_count =>
      ⟨{ d with fixturesInfo := some message
                bathroomCount := some ((bathMatch lm).getD 0) }, .well_depth⟩
  | .irrigation_area =>
      ⟨{ d with irrigationArea := some ((acreMatch lm).getD 0) }, .irrigation_type⟩
  | .irrigation_type =>
      let d := { d with irrigationType := some message }
      let d :=
        if containsKw lm "drip" then { d with irrigationMethod := some "drip" }
        else if containsKw lm "sprinkl" then { d with irrigationMethod := some "sprinkler" }
        else if containsKw lm "flood" then { d with irrigationMethod := some "flood" }
        else d
      ⟨d, .crop_type⟩
  | .crop_type =>
      let d := { d with cropType := some message }
      let d :=
        if containsKw lm "veget" then { d with cropCategory := some "vegetables" }
        else if containsKw lm "fruit" then { d with cropCategory := some "fruits" }
        else if containsKw lm "lawn" || containsKw lm "grass" then
          { d with cropCategory := some "lawn" }
        else d
      ⟨d, .well_depth⟩
  | .custom_flow =>
      let d := match firstNat lm with
               | some n => { d with customGPD := some n }
               | none => d
      ⟨d, .custom_head⟩
  | .custom_head =>
      let d := match firstNat lm with
               | some n => { d with customHead := some n }
               | none => d
      ⟨d, .well_depth⟩
  | .well_depth => ⟨{ d with wellDepth := some ((firstRat lm).getD 0) }, .static_water⟩
  | .static_water => ⟨{ d with staticWaterLevel := some ((firstRat lm).getD 0) }, .drawdown⟩
  | .drawdown =>
      match firstRat lm with
      | some q => ⟨{ d with drawdownLevel := some q }, .elevation⟩
      | none =>
          ⟨{ d with drawdownLevel := some ((d.staticWaterLevel.getD 0) * (1 / 10))
                    drawdownEstimated := true }, .elevation⟩
  | .elevation =>
      let d := { d with elevationGain := some ((firstRat lm).getD 0) }
      if containsKw lm "stock tank" || containsKw lm "directly" then
        ⟨{ d with directToStockTank := true }, .water_quality⟩
      else ⟨d, .pipe_info⟩
  | .pipe_info =>
      let d := match pipeLenMatch lm with
               | some n => { d with pipeLength := some (n : ℚ) }
               | none => d
      let d := match inchMatch lm with
               | some q => { d with pipeSize := some q }
               | none => d
      ⟨d, .storage_tank⟩
  | .storage_tank => ⟨{ d with hasStorageTank := some (!(containsKw lm "no")) }, .water_quality⟩
  | .water_quality =>
      ⟨{ d with sandyWater := containsKw lm "sand" || containsKw lm "sediment" }, .well_casing⟩
  | .well_casing =>
      let d := match inchMatch lm with
               | some q => { d with wellCasingSize := some q }
               | none => d
      ⟨d, .summary⟩
  | .summary =>
      if containsKw lm "yes" || containsKw lm "correct" || containsKw lm "right" ||
          (containsKw lm "look" && containsKw lm "good") then
        ⟨d, .recommendation⟩
      else if containsKw lm "location" then ⟨d, .location⟩
      else if containsKw lm "livestock" || containsKw lm "animal" then
        (if d.usageType = .livestock then ⟨d, .livestock_type⟩ else ⟨d, .summary⟩)
      else if containsKw lm "people" || containsKw lm "house" then
        (if d.usageType = .household then ⟨d, .people_count⟩ else ⟨d, .summary⟩)
      else if containsKw lm "irrigation" || containsKw lm "crop" then
        (if d.usageType = .irrigation then ⟨d, .irrigation_area⟩ else ⟨d, .summary⟩)
      else if containsKw lm "well" then ⟨d, .well_depth⟩
      else if containsKw lm "static" then ⟨d, .static_water⟩
      else if containsKw lm "drawdown" then ⟨d, .drawdown⟩
      else if containsKw lm "elevation" then ⟨d, .elevation⟩
      else if containsKw lm "pipe" then ⟨d, .pipe_info⟩
      else if containsKw lm "tank" then ⟨d, .storage_tank⟩
      else if containsKw lm "quality" || containsKw lm "sand" then ⟨d, .water_quality⟩
      else if containsKw lm "casing" then ⟨d, .well_casing⟩
      else ⟨d, .summary⟩
  | .recommendation => ⟨d, .recommendation⟩

/-- processUserInput (lines 338-650): extraction phase, then the
custom-override short-circuit (lines 382-389), then the stage switch. -/
def processUserInput (s : Session) (message : String) : Session :=
  if truthyN (extractPhase s message).customGPD ∧ truthyN (extractPhase s message).customHead ∧
      s.currentStage ≠ .summary ∧ s.currentStage ≠ .recommendation then
    ⟨{ extractPhase s message with usageType := .other }, .well_depth⟩
  else
    stageSwitch s.currentStage (extractPhase s message) message (lowerAscii message)

/-! ## Water demand calculator (part_000, lines 36-63 and 800-901) -/

/-- Result of calculateWaterRequirements. -/
structure WaterReq where
  dailyGallons : ℚ
  requiredGPM : ℚ
  peakSunHours : ℚ
deriving DecidableEq, Repr

/-- Livestock species resolution (lines 813-824): substring checks on
the stored free-text livestock description, default beef; an undefined
description short-circuits every check to false. -/
def livestockKind (t : Option String) : String :=
  match t with
  | none => "beef"
  | some s =>
      let ls := lowerAscii s
      if containsSub "dairy".toList ls then "dairy"
      else if containsSub "horse".toList ls then "horses"
      else if containsSub "goat".toList ls then "goats"
      else if containsSub "sheep".toList ls then "sheep"
      else "beef"

/-- Summer per-head daily need (lines 36-42). -/
def livestockSummerRate (kind : String) : ℚ :=
  if kind = "dairy" then 32
  else if kind = "horses" then 13.5
  else if kind = "goats" then 4
  else if kind = "sheep" then 4
  else 22

/-- Irrigation base rate per acre (lines 56-59 and 862-869): sprinkler
1200 is the default, overridden for drip and flood. -/
def irrigationBaseRate (method : Option String) : ℚ :=
  if method = some "drip" then 600
  else if method = some "flood" then 2400
  else 1200

/-- Crop multiplier (lines 60-62 and 871-879): default 1.0, vegetables
1.2, fruits 1.0, lawn 1.5. -/
def cropMultiplier (cat : Option String) : ℚ :=
  if cat = some "vegetables" then 1.2
  else if cat = some "fruits" then 1
  else if cat = some "lawn" then 1.5
  else 1

/-- calculateWaterRequirements (lines 801-901). A truthy customGPD
overrides the per-usage computation; peak sun hours are the fixed 5.4;
requiredGPM spreads the daily volume over the sun window. -/
def calculateWaterRequirements (d : CollectedData) : WaterReq :=
  let dailyGallons : ℚ :=
    if truthyN d.customGPD then (d.customGPD.getD 0 : ℚ)
    else
      match d.usageType with
      | .livestock =>
          livestockSummerRate (livestockKind d.livestockType) * ((d.animalCount.getD 0 : Nat) : ℚ)
      | .household =>
          let fi := match d.fixturesInfo with
                    | some s => lowerAscii s
                    | none => []
          let base := ((d.peopleCount.getD 0 : Nat) : ℚ) * 80
          let base := if truthyN d.bathroomCount then
                        base + ((d.bathroomCount.getD 0 : Nat) : ℚ) * 100
                      else base
          let base := if containsSub "kitchen".toList fi then base + 50 else base
          let base := if containsSub "laundry".toList fi then base + 30 else base
          if containsSub "garden".toList fi then
            (if containsSub "large".toList fi then base + 600
             else if containsSub "medium".toList fi then base + 300
             else base + 100)
          else base
      | .irrigation =>
          irrigationBaseRate d.irrigationMethod *
            (if truthyQ d.irrigationArea then d.irrigationArea.getD 0 else 1) *
            cropMultiplier d.cropCategory
      | _ => 500
  { dailyGallons := dailyGallons
    requiredGPM := dailyGallons / (5.4 * 60)
    peakSunHours := 5.4 }

/-! ## Hydraulic and solar sizing (part_000, lines 793-798 and 903-1036) -/

/-- calculateFrictionLoss (lines 793-798). -/
def calculateFrictionLoss (flowRate pipeLength pipeSize : ℚ) : ℚ :=
  0.02 * (pipeLength / pipeSize) * (flowRate * flowRate)

/-- The total-dynamic-head computation of calculateRecommendation
(lines 908-919): customHead OR 0; when that is falsy, the sum of the
level fields plus friction loss when both pipe fields are truthy. -/
def tdhOf (d : CollectedData) (requiredGPM : ℚ) : ℚ :=
  let t : ℚ := ((d.customHead.getD 0 : Nat) : ℚ)
  if t ≠ 0 then t
  else
    (d.staticWaterLevel.getD 0) + (d.drawdownLevel.getD 0) + (d.elevationGain.getD 0) +
      (if truthyQ d.pipeLength ∧ truthyQ d.pipeSize then
        calculateFrictionLoss requiredGPM (d.pipeLength.getD 0) (d.pipeSize.getD 0)
      else 0)

/-- Solar configuration numbers (lines 958-964 and 1026-1032). -/
structure SolarConfig where
  powerRequired : Nat
  panelsNeeded : Nat
  adjustedPanels : Nat
  wattage : Nat
  seriesPairs : Nat
deriving DecidableEq, Repr

/-- The solar-configuration block: 53 watts per stage, panel count is
the ceiling of power over 100, bumped to even; the wiring description
template reports adjustedPanels and adjustedPanels / 2 series pairs. -/
def solarConfigOf (stages : Nat) : SolarConfig :=
  let power := stages * 53
  let panelsNeeded := (⌈(power : ℚ) / 100⌉).toNat
  let adjusted := if panelsNeeded % 2 = 0 then panelsNeeded else panelsNeeded + 1
  { powerRequired := power
    panelsNeeded := panelsNeeded
    adjustedPanels := adjusted
    wattage := adjusted * 100
    seriesPairs := adjusted / 2 }

/-- Pump-selection loop of calculateRecommendation (lines 941-949):
first model in iteration order that qualifies on nameplate maxFlow and
maxHead, replaced only by a later model with strictly fewer stages.
Here the iterated object is the pump model table from pumpData.js; in
the source the identifier pumpData is bound by
"const pumpData = require('./pumpData')" to the module export object
instead (see selectLoopImported below for the loop over that object
as actually imported). -/
def selectLoop (gpm tdh : ℚ) : Option PumpModel :=
  pumpDataTable.foldl
    (fun acc m =>
      if m.maxFlow ≥ gpm ∧ m.maxHead ≥ tdh then minStep (fun p => p.stages) acc m
      else acc)
    none

/-- Fields of the structured recommendation object in the valid case,
before the toFixed string formatting that the source applies to some of
them for display. -/
structure ValidRec where
  dailyGallons : ℚ
  requiredGPM : ℚ
  peakSunHours : ℚ
  tdh : ℚ
  model : String
  stages : Nat
  maxFlow : ℚ
  maxHead : ℚ
  powerRequired : Nat
  panelsNeeded : Nat
  adjustedPanels : Nat
  wattage : Nat
  seriesPairs : Nat
  dailyOutput : ℚ
deriving DecidableEq, Repr

/-- Result of calculateRecommendation: the isValid false branches carry
their customer-facing message. -/
inductive RecResult where
  | invalid (message : String)
  | valid (r : ValidRec)
deriving DecidableEq, Repr

def RecResult.isValid : RecResult → Bool
  | .valid _ => true
  | .invalid _ => false

def sandyMessage : String :=
  "Your water has too much sand for our solar pumps. You might want to consider contacting us directly for alternatives."

def casingMessage : String :=
  "Our pumps require a well casing of 5 inches or larger. Your well casing is too small for our pumps. Please contact us for assistance."

def noPumpMessage : String :=
  "Based on your requirements, we don\x27t have a standard pump that meets your needs. Please contact us directly for a custom solution."

/-- calculateRecommendation (lines 904-1036) with the selection loop
iterating the pump model table (the binding the loop body is written
against). Guards in source order: sandy water, then a truthy
wellCasingSize below 5, then selection, then the solar block. -/
def calculateRecommendation (d : CollectedData) : RecResult :=
  let w := calculateWaterRequirements d
  let tdh := tdhOf d w.requiredGPM
  if d.sandyWater then .invalid sandyMessage
  else if truthyQ d.wellCasingSize ∧ d.wellCasingSize.getD 0 < 5 then .invalid casingMessage
  else
    match selectLoop w.requiredGPM tdh with
    | none => .invalid noPumpMessage
    | some m =>
        let sc := solarConfigOf m.stages
        .valid
          { dailyGallons := w.dailyGallons
            requiredGPM := w.requiredGPM
            peakSunHours := w.peakSunHours
            tdh := tdh
            model := m.name
            stages := m.stages
            maxFlow := m.maxFlow
            maxHead := m.maxHead
            powerRequired := sc.powerRequired
            panelsNeeded := sc.panelsNeeded
            adjustedPanels := sc.adjustedPanels
            wattage := sc.wattage
            seriesPairs := sc.seriesPairs
            dailyOutput := m.maxFlow * (w.peakSunHours * 60) }

/-! ## The selection loop over the object actually imported

pumpData.js ends with "module.exports = { pumpData, findSuitablePump }",
and part_000 (line 11) binds "const pumpData = require('./pumpData')",
so Object.entries(pumpData) in the selection loop yields the two export
properties, whose maxFlow, maxHead and stages are all undefined; a >=
comparison against undefined is false in JavaScript, so no entry ever
qualifies. -/

/-- One enumerated property of the imported module object: the numeric
fields the loop reads are all undefined (none). -/
structure ImportedEntry where
  name : String
  stages : Option Nat
  maxFlow : Option ℚ
  maxHead : Option ℚ
deriving DecidableEq, Repr

/-- Object.entries of the require result: the two export properties. -/
def requireWrapperEntries : List ImportedEntry :=
  [ { name := "pumpData", stages := none, maxFlow := none, maxHead := none },
    { name := "findSuitablePump", stages := none, maxFlow := none, maxHead := none } ]

/-- A JavaScript >= comparison whose left side may be undefined:
undefined >= x is false. -/
def jsGE : Option ℚ → ℚ → Bool
  | some a, b => a ≥ b
  | none, _ => false

/-- The same selection loop iterating the imported module object. -/
def selectLoopImported (gpm tdh : ℚ) : Option ImportedEntry :=
  requireWrapperEntries.foldl
    (fun acc e =>
      if jsGE e.maxFlow gpm && jsGE e.maxHead tdh then
        minStep (fun x => x.stages.getD 0) acc e
      else acc)
    none

/-- calculateRecommendation with the pumpData identifier resolved the
way the import actually resolves it. The qualification test is false
for both wrapper entries, so the selection yields none and the function
ends in the no-suitable-pump rejection whenever the sandy-water and
casing guards pass; the valid branch is unreachable (the match arm
mirrors the none outcome, and selectLoopImported_eq_none below proves
the arm dead). -/
def calculateRecommendationAsImported (d : CollectedData) : RecResult :=
  let w := calculateWaterRequirements d
  let tdh := tdhOf d w.requiredGPM
  if d.sandyWater then .invalid sandyMessage
  else if truthyQ d.wellCasingSize ∧ d.wellCasingSize.getD 0 < 5 then .invalid casingMessage
  else
    match selectLoopImported w.requiredGPM tdh with
    | _ => .invalid noPumpMessage

/-! ## Concrete data used by witnesses and counterexamples -/

/-- Custom override demands, no casing reported, no sandy water. -/
def dNoCasing : CollectedData :=
  { usageType := .other, customGPD := some 500, customHead := some 50 }

/-- Sandy water together with a 6-inch casing and a 10-foot custom head. -/
def dSandy : CollectedData :=
  { usageType := .other, customGPD := some 500, customHead := some 10
    sandyWater := true, wellCasingSize := some 6 }

/-- A 4-inch casing with otherwise modest, satisfiable demands. -/
def dSmallCasing : CollectedData :=
  { usageType := .other, customGPD := some 500, customHead := some 50
    wellCasingSize := some 4 }

/-- A casing size recorded as 0 inches (falsy), not sandy, modest demands. -/
def dZeroCasing : CollectedData :=
  { usageType := .other, customGPD := some 500, customHead := some 50
    wellCasingSize := some 0 }

/-- customHead recorded as 0 with level data present. -/
def dCustomHeadZero : CollectedData :=
  { usageType := .other, customHead := some 0
    staticWaterLevel := some 100, drawdownLevel := some 10 }

/-- A nonzero customHead. -/
def dCustomHead80 : CollectedData :=
  { usageType := .other, customHead := some 80, staticWaterLevel := some 100 }

/-- No custom head; levels and pipe data present. -/
def dPipes : CollectedData :=
  { usageType := .other
    staticWaterLevel := some 100, drawdownLevel := some 10, elevationGain := some 5
    pipeLength := some 200, pipeSize := some 2 }

/-- Irrigation with a recorded area of 0 acres, drip, vegetables. -/
def dIrrZero : CollectedData :=
  { usageType := .irrigation, irrigationArea := some 0
    irrigationMethod := some "drip", cropCategory := some "vegetables" }

/-- Irrigation with 2 acres, flood method, lawn. -/
def dIrrTwo : CollectedData :=
  { usageType := .irrigation, irrigationArea := some 2
    irrigationMethod := some "flood", cropCategory := some "lawn" }

/-- A session holding nonzero custom overrides, still at GREETING. -/
def sessionBothSet : Session :=
  ⟨{ customGPD := some 500, customHead := some 50 }, .greeting⟩

/-- A fresh session at the USAGE_TYPE stage. -/
def sessionAtUsageType : Session := ⟨{}, .usage_type⟩

/-- The models passing the flat nameplate checks of the selection loop
in calculateRecommendation, in catalog order. -/
def flatSuitable (gpm tdh : ℚ) : List PumpModel :=
  pumpDataTable.filter (fun m => decide (m.maxFlow ≥ gpm ∧ m.maxHead ≥ tdh))

/-- The recommendation computed for dNoCasing when the selection loop
iterates the pump model table: 500 gallons per day over 5.4 sun hours
needs 500/324 GPM at 50 feet of head, which the 2-stage model covers. -/
def rNoCasing : ValidRec :=
  { dailyGallons := 500, requiredGPM := 125 / 81, peakSunHours := 27 / 5, tdh := 50
    model := "2S48V50C", stages := 2, maxFlow := 5, maxHead := 80
    powerRequired := 106, panelsNeeded := 2, adjustedPanels := 2, wattage := 200
    seriesPairs := 1, dailyOutput := 1620 }

/-! ## General lemmas about the selection and interpolation code -/

lemma firstMinBy_cons_ne_none (rank : α → Nat) (a : α) (l : List α) :
    firstMinBy rank (a :: l) ≠ none := by
  cases h : firstMinBy rank l with
  | none => simp [firstMinBy, h]
  | some b =>
    simp only [firstMinBy, h]
    split <;> simp

lemma eq_nil_of_firstMinBy_eq_none {rank : α → Nat} {l : List α}
    (h : firstMinBy rank l = none) : l = [] := by
  cases l with
  | nil => rfl
  | cons a t => exact absurd h (firstMinBy_cons_ne_none rank a t)

/-- The element returned by firstMinBy occurs in the list, has minimal
rank, and every strictly earlier element has strictly larger rank. -/
lemma firstMinBy_spec {rank : α → Nat} :
    ∀ (l : List α) (x : α), firstMinBy rank l = some x →
      ∃ i, l.get? i = some x ∧ (∀ y ∈ l, rank x ≤ rank y) ∧
        ∀ j, j < i → ∀ y, l.get? j = some y → rank x < rank y := by
  intro l
  induction l with
  | nil => intro x hx; simp [firstMinBy] at hx
  | cons a xs ih =>
    intro x hx
    cases h : firstMinBy rank xs with
    | none =>
      simp only [firstMinBy, h] at hx
      obtain rfl : a = x := by simpa using hx
      have hxs : xs = [] := eq_nil_of_firstMinBy_eq_none h
      subst hxs
      exact ⟨0, rfl, by simp, by simp⟩
    | some b =>
      simp only [firstMinBy, h] at hx
      obtain ⟨i, hget, hmin, hfirst⟩ := ih b h
      by_cases hab : rank a ≤ rank b
      · rw [if_pos hab] at hx
        obtain rfl : a = x := by simpa using hx
        refine ⟨0, rfl, ?_, by simp⟩
        intro y hy
        rcases List.mem_cons.mp hy with rfl | hy
        · exact le_refl _
        · exact le_trans hab (hmin y hy)
      · rw [if_neg hab] at hx
        obtain rfl : b = x := by simpa using hx
        refine ⟨i + 1, by simpa using hget, ?_, ?_⟩
        · intro y hy
          rcases List.mem_cons.mp hy with rfl | hy
          · exact le_of_lt (lt_of_not_le hab)
          · exact hmin y hy
        · intro j hj y hy
          cases j with
          | zero =>
            obtain rfl : a = y := by simpa using hy
            exact lt_of_not_le hab
          | succ jj =>
            exact hfirst jj (by omega) y (by simpa using hy)

/-- A foldl that skips elements failing p equals the foldl over the
filtered list. -/
lemma foldl_skip_eq_foldl_filter {g : Option β → α → Option β} {p : α → Prop}
    [DecidablePred p] :
    ∀ (l : List α) (acc : Option β),
      l.foldl (fun acc x => if p x then g acc x else acc) acc =
        (l.filter (fun x => decide (p x))).foldl g acc := by
  intro l
  induction l with
  | nil => intro acc; rfl
  | cons a t ih =>
    intro acc
    by_cases hp : p a <;> simp [List.filter_cons, hp, ih]

/-- Merging an accumulator with the first minimum of the remaining list,
as the selection foldl does. -/
def minMerge (rank : α → Nat) : Option α → Option α → Option α
  | none, r => r
  | some b, none => some b
  | some b, some m => if rank m < rank b then some m else some b

lemma foldl_minStep_eq_firstMinBy {rank : α → Nat} :
    ∀ (l : List α) (acc : Option α),
      l.foldl (minStep rank) acc = minMerge rank acc (firstMinBy rank l) := by
  intro l
  induction l with
  | nil => intro acc; cases acc <;> rfl
  | cons x xs ih =>
    intro acc
    rw [List.foldl_cons, ih]
    cases h : firstMinBy rank xs with
    | none =>
      have hxs : xs = [] := eq_nil_of_firstMinBy_eq_none h
      subst hxs
      cases acc with
      | none => rfl
      | some b =>
        simp only [firstMinBy, minStep_some, minMerge]
        split_ifs <;> rfl
    | some m =>
      simp only [firstMinBy, h]
      cases acc with
      | none =>
        simp only [minStep_none, minMerge]
        by_cases hxm : rank x ≤ rank m
        · rw [if_pos hxm, if_neg (by omega)]
        · rw [if_neg hxm, if_pos (by omega)]
      | some b =>
        simp only [minStep_some, minMerge]
        by_cases hxb : rank x < rank b
        · rw [if_pos hxb]
          by_cases hxm : rank x ≤ rank m
          · rw [if_pos hxm]
            simp only [minMerge]
            rw [if_neg (by omega), if_pos hxb]
          · rw [if_neg hxm]
            simp only [minMerge]
            rw [if_pos (by omega), if_pos (by omega)]
        · rw [if_neg hxb]
          by_cases hxm : rank x ≤ rank m
          · rw [if_pos hxm]
            simp only [minMerge]
            rw [if_neg (by omega), if_neg (by omega)]
          · rw [if_neg hxm]

/-- Membership in the suitable-pumps list built by the filtering loop. -/
lemma mem_suitableOver {gpm tdh : ℚ} :
    ∀ (L : List PumpModel) (e : SuitEntry),
      e ∈ suitableOver L gpm tdh ↔
        ∃ m ∈ L, ¬ tdh > m.maxHead ∧ flowAtHead m.flowRateByHead tdh ≥ gpm ∧
          e = mkEntry m tdh := by
  intro L
  induction L with
  | nil => intro e; simp [suitableOver]
  | cons m L ih =>
    intro e
    rw [suitableOver, List.foldr_cons]
    by_cases h1 : tdh > m.maxHead
    · rw [if_pos h1]
      rw [show (List.foldr _ [] L) = suitableOver L gpm tdh from rfl, ih]
      constructor
      · rintro ⟨m', hm', hc⟩
        exact ⟨m', List.mem_cons_of_mem _ hm', hc⟩
      · rintro ⟨m', hm', hh, hf, he⟩
        rcases List.mem_cons.mp hm' with rfl | hm'
        · exact absurd h1 hh
        · exact ⟨m', hm', hh, hf, he⟩
    · rw [if_neg h1]
      by_cases h2 : flowAtHead m.flowRateByHead tdh ≥ gpm
      · rw [if_pos h2]
        rw [List.mem_cons,
          show (List.foldr _ [] L) = suitableOver L gpm tdh from rfl, ih]
        constructor
        · rintro (rfl | ⟨m', hm', hc⟩)
          · exact ⟨m, List.mem_cons_self _ _, h1, h2, rfl⟩
          · exact ⟨m', List.mem_cons_of_mem _ hm', hc⟩
        · rintro ⟨m', hm', hh, hf, he⟩
          rcases List.mem_cons.mp hm' with rfl | hm'
          · exact Or.inl he
          · exact Or.inr ⟨m', hm', hh, hf, he⟩
      · rw [if_neg h2]
        rw [show (List.foldr _ [] L) = suitableOver L gpm tdh from rfl, ih]
        constructor
        · rintro ⟨m', hm', hc⟩
          exact ⟨m', List.mem_cons_of_mem _ hm', hc⟩
        · rintro ⟨m', hm', hh, hf, he⟩
          rcases List.mem_cons.mp hm' with rfl | hm'
          · exact absurd hf h2
          · exact ⟨m', hm', hh, hf, he⟩

/-- The six catalog models have pairwise distinct names. -/
lemma catalog_name_inj :
    ∀ m1 ∈ pumpDataTable, ∀ m2 ∈ pumpDataTable, m1.name = m2.name → m1 = m2 := by
  intro m1 hm1 m2 hm2
  simp only [pumpDataTable, List.mem_cons, List.mem_singleton, List.not_mem_nil,
    or_false] at hm1 hm2
  rcases hm1 with rfl | rfl | rfl | rfl | rfl | rfl <;>
    rcases hm2 with rfl | rfl | rfl | rfl | rfl | rfl <;>
      first
        | (intro _; rfl)
        | (intro h; exact absurd h (by decide))

/-- A catalog model within head range is in the suitable list exactly
when its interpolated flow meets the required flow. -/
lemma mem_suitablePumps_iff {m : PumpModel} (hm : m ∈ pumpDataTable) {gpm tdh : ℚ}
    (hh : tdh ≤ m.maxHead) :
    mkEntry m tdh ∈ suitablePumps gpm tdh ↔ gpm ≤ flowAtHead m.flowRateByHead tdh := by
  rw [suitablePumps, mem_suitableOver]
  constructor
  · rintro ⟨m', hm', _, hf, he⟩
    have hname : m'.name = m.name := by
      have := congrArg SuitEntry.model he
      simpa [mkEntry] using this.symm
    have : m' = m := catalog_name_inj m' hm' m hm hname
    subst this
    exact hf
  · intro hf
    exact ⟨m, hm, not_lt.mpr hh, hf, rfl⟩

/-! ## Bracketing lemmas for the performance-curve interpolation -/

/-- Last point of a nonempty curve written as head element plus rest. -/
def lastD : CurvePoint → List CurvePoint → CurvePoint
  | p, [] => p
  | _, q :: rest => lastD q rest

/-- A curve with non-decreasing heads whose first head is at most h and
whose last head is at least h has a consecutive bracketing pair. -/
lemma exists_bracket :
    ∀ (rest : List CurvePoint) (p : CurvePoint) (h : ℚ),
      rest ≠ [] →
      List.Chain' (fun a b => a.head ≤ b.head) (p :: rest) →
      p.head ≤ h → h ≤ (lastD p rest).head →
      ∃ p1 p2, AdjPair (p :: rest) p1 p2 ∧ p1.head ≤ h ∧ h ≤ p2.head := by
  intro rest
  induction rest with
  | nil => intro p h hne; exact absurd rfl hne
  | cons q rest2 ih =>
    intro p h _ hchain hp hlast
    by_cases hq : h ≤ q.head
    · exact ⟨p, q, ⟨0, rfl, rfl⟩, hp, hq⟩
    · push_neg at hq
      cases rest2 with
      | nil => exact absurd hlast (by simpa [lastD] using hq)
      | cons r t =>
        have hchain2 : List.Chain' (fun a b => a.head ≤ b.head) (q :: r :: t) :=
          hchain.tail
        obtain ⟨p1, p2, ⟨i, h1, h2⟩, hb1, hb2⟩ :=
          ih q h (by simp) hchain2 (le_of_lt hq) hlast
        exact ⟨p1, p2, ⟨i + 1, by simpa using h1, by simpa using h2⟩, hb1, hb2⟩

/-- Whenever some consecutive pair brackets h, flowAtHead returns the
spec interpolation formula at a bracketing consecutive pair. -/
lemma flowAtHead_eq_interp :
    ∀ (c : List CurvePoint) (h : ℚ),
      (∃ p1 p2, AdjPair c p1 p2 ∧ p1.head ≤ h ∧ h ≤ p2.head) →
      ∃ p1 p2, AdjPair c p1 p2 ∧ p1.head ≤ h ∧ h ≤ p2.head ∧
        flowAtHead c h = interpSpec p1 p2 h := by
  intro c
  induction c with
  | nil =>
    intro h hex
    obtain ⟨p1, p2, ⟨i, h1, _⟩, _, _⟩ := hex
    simp at h1
  | cons a tail ih =>
    intro h hex
    cases tail with
    | nil =>
      obtain ⟨p1, p2, ⟨i, h1, h2⟩, _, _⟩ := hex
      cases i with
      | zero => simp at h2
      | succ j => simp at h1
    | cons b t =>
      by_cases hab : a.head ≤ h ∧ h ≤ b.head
      · refine ⟨a, b, ⟨0, rfl, rfl⟩, hab.1, hab.2, ?_⟩
        rw [flowAtHead, if_pos hab, interpSpec, div_mul_eq_mul_div]
      · obtain ⟨p1, p2, ⟨i, h1, h2⟩, hb1, hb2⟩ := hex
        cases i with
        | zero =>
          obtain rfl : a = p1 := by simpa using h1
          obtain rfl : b = p2 := by simpa using h2
          exact absurd ⟨hb1, hb2⟩ hab
        | succ j =>
          obtain ⟨p1', p2', ⟨i', h1', h2'⟩, hb1', hb2', heq⟩ :=
            ih h ⟨p1, p2, ⟨j, by simpa using h1, by simpa using h2⟩, hb1, hb2⟩
          refine ⟨p1', p2', ⟨i' + 1, by simpa using h1', by simpa using h2'⟩,
            hb1', hb2', ?_⟩
          rw [flowAtHead, if_neg hab]
          exact heq

/-! ## Lemmas about the extraction phase and the short-circuit -/

lemma applyGpd_of_truthy {d : CollectedData} (lm : List Char)
    (h : truthyN d.customGPD = true) : applyGpdExtract d lm = d := by
  unfold applyGpdExtract
  cases gpdMatch lm with
  | none => rfl
  | some n => simp [h]

lemma applyHead_of_truthy {d : CollectedData} (lm : List Char)
    (h : truthyN d.customHead = true) : applyHeadExtract d lm = d := by
  unfold applyHeadExtract
  cases headMatch lm with
  | none => rfl
  | some n => simp [h]

lemma applyGpd_customHead (d : CollectedData) (lm : List Char) :
    (applyGpdExtract d lm).customHead = d.customHead := by
  unfold applyGpdExtract
  cases gpdMatch lm with
  | none => rfl
  | some n =>
    dsimp only
    split <;> rfl

lemma classifyUsage_custom (st : Stage) (d : CollectedData) (lm : List Char) :
    (classifyUsage st d lm).customGPD = d.customGPD ∧
      (classifyUsage st d lm).customHead = d.customHead := by
  unfold classifyUsage
  split_ifs <;> exact ⟨rfl, rfl⟩

lemma extractPhase_custom_of_truthy (s : Session) (m : String)
    (hg : truthyN s.data.customGPD = true) (hh : truthyN s.data.customHead = true) :
    (extractPhase s m).customGPD = s.data.customGPD ∧
      (extractPhase s m).customHead = s.data.customHead := by
  unfold extractPhase
  rw [applyGpd_of_truthy _ hg, applyHead_of_truthy _ hh]
  exact classifyUsage_custom _ _ _

/-- With both overrides truthy and the stage outside SUMMARY and
RECOMMENDATION, a turn ends at WELL_DEPTH with the overrides intact. -/
lemma step_shortCircuit (s : Session) (m : String)
    (hg : truthyN s.data.customGPD = true) (hh : truthyN s.data.customHead = true)
    (h1 : s.currentStage ≠ .summary) (h2 : s.currentStage ≠ .recommendation) :
    (processUserInput s m).currentStage = .well_depth ∧
      (processUserInput s m).data.customGPD = s.data.customGPD ∧
      (processUserInput s m).data.customHead = s.data.customHead := by
  obtain ⟨e1, e2⟩ := extractPhase_custom_of_truthy s m hg hh
  have hg' : truthyN (extractPhase s m).customGPD = true := by rw [e1]; exact hg
  have hh' : truthyN (extractPhase s m).customHead = true := by rw [e2]; exact hh
  simp only [processUserInput]
  rw [if_pos ⟨hg', hh', h1, h2⟩]
  exact ⟨rfl, e1, e2⟩

/-- Invariant preservation over a whole sequence of turns. -/
lemma foldl_shortCircuit :
    ∀ (msgs : List String) (s : Session),
      truthyN s.data.customGPD = true → truthyN s.data.customHead = true →
      s.currentStage ≠ .summary → s.currentStage ≠ .recommendation →
      truthyN (msgs.foldl processUserInput s).data.customGPD = true ∧
        truthyN (msgs.foldl processUserInput s).data.customHead = true ∧
        (msgs.foldl processUserInput s).currentStage ≠ .summary ∧
        (msgs.foldl processUserInput s).currentStage ≠ .recommendation := by
  intro msgs
  induction msgs with
  | nil => intro s hg hh h1 h2; exact ⟨hg, hh, h1, h2⟩
  | cons m ms ih =>
    intro s hg hh h1 h2
    obtain ⟨hst, hG, hH⟩ := step_shortCircuit s m hg hh h1 h2
    rw [List.foldl_cons]
    refine ih (processUserInput s m) ?_ ?_ ?_ ?_
    · rw [hG]; exact hg
    · rw [hH]; exact hh
    · rw [hst]; decide
    · rw [hst]; decide

lemma applyGpd_idem (d : CollectedData) (lm : List Char) :
    applyGpdExtract (applyGpdExtract d lm) lm = applyGpdExtract d lm := by
  unfold applyGpdExtract
  cases h : gpdMatch lm with
  | none => rfl
  | some n =>
    by_cases hg : truthyN d.customGPD = true
    · simp [hg]
    · by_cases hn : truthyN (some n) = true <;> simp [hg, hn, truthyN] at * <;> simp [*]

lemma applyHead_idem (d : CollectedData) (lm : List Char) :
    applyHeadExtract (applyHeadExtract d lm) lm = applyHeadExtract d lm := by
  unfold applyHeadExtract
  cases h : headMatch lm with
  | none => rfl
  | some n =>
    by_cases hg : truthyN d.customHead = true
    · simp [hg]
    · by_cases hn : truthyN (some n) = true <;> simp [hg, hn, truthyN] at * <;> simp [*]

lemma customBlock_idem (d : CollectedData) (lm : List Char) :
    applyHeadExtract (applyGpdExtract (applyHeadExtract (applyGpdExtract d lm) lm) lm) lm
      = applyHeadExtract (applyGpdExtract d lm) lm := by
  unfold applyGpdExtract applyHeadExtract
  cases h1 : gpdMatch lm with
  | none =>
    cases h2 : headMatch lm with
    | none => rfl
    | some k =>
      by_cases hh : truthyN d.customHead = true
      · simp [hh]
      · by_cases hk : truthyN (some k) = true <;> simp [hh, hk, truthyN] at * <;> simp [*]
  | some n =>
    cases h2 : headMatch lm with
    | none =>
      by_cases hg : truthyN d.customGPD = true
      · simp [hg]
      · by_cases hn : truthyN (some n) = true <;> simp [hg, hn, truthyN] at * <;> simp [*]
    | some k =>
      by_cases hg : truthyN d.customGPD = true <;>
        by_cases hh : truthyN d.customHead = true <;>
          by_cases hn : truthyN (some n : Option Nat) = true <;>
            by_cases hk : truthyN (some k : Option Nat) = true <;>
              simp [hg, hh, hn, hk, truthyN] at * <;> simp [*]

lemma classifyUsage_idem (st : Stage) (d : CollectedData) (lm : List Char) :
    classifyUsage st (classifyUsage st d lm) lm = classifyUsage st d lm := by
  unfold classifyUsage
  split_ifs <;> rfl

/-! ## Lemmas about the recommendation calculators -/

/-- The calculateRecommendation selection loop is the first qualifying
model of minimal stage count. -/
lemma selectLoop_eq_firstMinBy (gpm tdh : ℚ) :
    selectLoop gpm tdh = firstMinBy (fun p => p.stages) (flatSuitable gpm tdh) := by
  unfold selectLoop flatSuitable
  rw [foldl_skip_eq_foldl_filter, foldl_minStep_eq_firstMinBy]
  rfl

/-- Neither property of the imported module object passes the
qualification test, so the loop over it selects nothing. -/
lemma selectLoopImported_eq_none (gpm tdh : ℚ) : selectLoopImported gpm tdh = none := rfl

/-- As imported, calculateRecommendation never returns a valid result:
outside the sandy-water and casing rejections it always ends in the
no-suitable-pump rejection. -/
lemma asImported_never_valid (d : CollectedData) :
    (calculateRecommendationAsImported d).isValid = false := by
  unfold calculateRecommendationAsImported
  split_ifs <;> rfl

/-- Ceiling of a natural number divided by 100, as a natural-number
formula. -/
lemma ceil_div_hundred (a : Nat) : ⌈(a : ℚ) / 100⌉ = (((a + 99) / 100 : Nat) : ℤ) := by
  have hq := Nat.div_add_mod (a + 99) 100
  have hr : (a + 99) % 100 < 100 := Nat.mod_lt _ (by norm_num)
  set q : Nat := (a + 99) / 100 with hqdef
  have h1 : 100 * q < a + 100 := by omega
  have h2 : a ≤ 100 * q := by omega
  rw [Int.ceil_eq_iff]
  constructor
  · rw [lt_div_iff₀ (by norm_num : (0 : ℚ) < 100)]
    have h3 : (100 : ℚ) * q < (a : ℚ) + 100 := by exact_mod_cast h1
    push_cast
    linarith
  · rw [div_le_iff₀ (by norm_num : (0 : ℚ) < 100)]
    have h3 : (a : ℚ) ≤ 100 * q := by exact_mod_cast h2
    push_cast
    linarith

lemma ceil_div_hundred_toNat (a : Nat) :
    (⌈(a : ℚ) / 100⌉).toNat = (a + 99) / 100 := by
  rw [ceil_div_hundred]
  exact Int.toNat_natCast _

/-- Evaluation of the table-resolved calculateRecommendation on the
no-casing override data: the 2-stage model is selected. -/
lemma calcRec_dNoCasing : calculateRecommendation dNoCasing = RecResult.valid rNoCasing := by
  have hw : calculateWaterRequirements dNoCasing = ⟨500, 125 / 81, 27 / 5⟩ := by
    norm_num [calculateWaterRequirements, dNoCasing, truthyN]
  have htdh : tdhOf dNoCasing (125 / 81) = 50 := by
    norm_num [tdhOf, dNoCasing]
  have hsel : selectLoop (125 / 81) 50 = some pump2S := by
    norm_num [selectLoop, pumpDataTable, pump1S, pump2S, pump3S, pump4S, pump5S, pump6S,
      minStep]
  have hsc : solarConfigOf 2 = ⟨106, 2, 2, 200, 1⟩ := by
    simp only [solarConfigOf]
    rw [ceil_div_hundred_toNat]
    rfl
  have hS : dNoCasing.sandyWater = false := rfl
  have hC : dNoCasing.wellCasingSize = none := rfl
  norm_num [calculateRecommendation, hw, htdh, hsel, hsc, hS, hC, truthyQ, pump2S,
    rNoCasing]

/-- Every catalog curve brackets any head between 0 and the model's
maxHead with some consecutive pair. -/
lemma catalog_bracket (m : PumpModel) (hm : m ∈ pumpDataTable) (tdh : ℚ)
    (h0 : 0 ≤ tdh) (hle : tdh ≤ m.maxHead) :
    ∃ p1 p2, AdjPair m.flowRateByHead p1 p2 ∧ p1.head ≤ tdh ∧ tdh ≤ p2.head := by
  simp only [pumpDataTable, List.mem_cons, List.not_mem_nil, or_false] at hm
  rcases hm with rfl | rfl | rfl | rfl | rfl | rfl <;>
    · refine exists_bracket _ _ tdh (by simp) ?_ (by simpa using h0) ?_
      · norm_num [pump1S, pump2S, pump3S, pump4S, pump5S, pump6S, List.chain'_cons]
      · simpa [lastD, pump1S, pump2S, pump3S, pump4S, pump5S, pump6S] using hle

/-! ## Claim theorems -/

/-- C5 (corrected: "known" requires a nonzero value, because the
short-circuit tests JavaScript truthiness and extraction can record the
value 0): for every session whose stage is neither SUMMARY nor
RECOMMENDATION, if customGPD and customHead are both nonzero after the
extraction phase of a turn, processUserInput forces usageType to other
and jumps to WELL_DEPTH, regardless of any prior usage-type answer. -/
theorem custom_override_short_circuit :
    ∀ (s : Session) (m : String),
      s.currentStage ≠ Stage.summary → s.currentStage ≠ Stage.recommendation →
      truthyN (extractPhase s m).customGPD = true →
      truthyN (extractPhase s m).customHead = true →
      (processUserInput s m).currentStage = Stage.well_depth ∧
        (processUserInput s m).data.usageType = UsageType.other := by
  intro s m h1 h2 hg hh
  unfold processUserInput
  rw [if_pos ⟨hg, hh, h1, h2⟩]
  exact ⟨rfl, rfl⟩

/-- C5 witness: a fresh session at USAGE_TYPE receiving a message with a
nonzero flow and head. -/
theorem custom_override_short_circuit_witness :
    sessionAtUsageType.currentStage ≠ Stage.summary ∧
    sessionAtUsageType.currentStage ≠ Stage.recommendation ∧
    truthyN (extractPhase sessionAtUsageType "need 500 gpd and 80 feet of lift").customGPD
      = true ∧
    truthyN (extractPhase sessionAtUsageType "need 500 gpd and 80 feet of lift").customHead
      = true ∧
    (processUserInput sessionAtUsageType "need 500 gpd and 80 feet of lift").currentStage
      = Stage.well_depth ∧
    (processUserInput sessionAtUsageType "need 500 gpd and 80 feet of lift").data.usageType
      = UsageType.other :=
  ⟨by decide, by decide, by decide, by decide,
    custom_override_short_circuit sessionAtUsageType "need 500 gpd and 80 feet of lift"
      (by decide) (by decide) (by decide) (by decide)⟩

/-- C5 counterexample: the message "0 gpd 100 feet" at stage USAGE_TYPE
leaves both overrides known (customGPD = 0, customHead = 100) after
extraction, yet the turn stays at USAGE_TYPE with usageType unknown,
because the short-circuit tests truthiness and 0 is falsy. -/
theorem custom_override_zero_counterexample :
    sessionAtUsageType.currentStage ≠ Stage.summary ∧
    sessionAtUsageType.currentStage ≠ Stage.recommendation ∧
    (extractPhase sessionAtUsageType "0 gpd 100 feet").customGPD = some 0 ∧
    (extractPhase sessionAtUsageType "0 gpd 100 feet").customHead = some 100 ∧
    (processUserInput sessionAtUsageType "0 gpd 100 feet").currentStage = Stage.usage_type ∧
    (processUserInput sessionAtUsageType "0 gpd 100 feet").data.usageType
      = UsageType.unknown := by
  decide

/-- C6 (confirmed): once a session carries nonzero customGPD and
customHead and sits at a stage other than SUMMARY and RECOMMENDATION,
every turn ends at WELL_DEPTH, and no sequence of further messages can
ever bring the session to SUMMARY or RECOMMENDATION through
processUserInput. -/
theorem custom_override_absorbing :
    ∀ (s : Session),
      truthyN s.data.customGPD = true → truthyN s.data.customHead = true →
      s.currentStage ≠ Stage.summary → s.currentStage ≠ Stage.recommendation →
      (∀ m : String, (processUserInput s m).currentStage = Stage.well_depth) ∧
      (∀ msgs : List String,
        (msgs.foldl processUserInput s).currentStage ≠ Stage.summary ∧
        (msgs.foldl processUserInput s).currentStage ≠ Stage.recommendation) := by
  intro s hg hh h1 h2
  refine ⟨fun m => (step_shortCircuit s m hg hh h1 h2).1, fun msgs => ?_⟩
  obtain ⟨-, -, hs, hr⟩ := foldl_shortCircuit msgs s hg hh h1 h2
  exact ⟨hs, hr⟩

/-- C6 witness: a session with both overrides set at GREETING stays away
from SUMMARY over a concrete sequence of turns. -/
theorem custom_override_absorbing_witness :
    truthyN sessionBothSet.data.customGPD = true ∧
    truthyN sessionBothSet.data.customHead = true ∧
    sessionBothSet.currentStage ≠ Stage.summary ∧
    sessionBothSet.currentStage ≠ Stage.recommendation ∧
    (processUserInput sessionBothSet "hello").currentStage = Stage.well_depth ∧
    (["hello", "yes"].foldl processUserInput sessionBothSet).currentStage ≠ Stage.summary :=
  ⟨by decide, by decide, by decide, by decide,
    (custom_override_absorbing sessionBothSet (by decide) (by decide) (by decide)
      (by decide)).1 "hello",
    ((custom_override_absorbing sessionBothSet (by decide) (by decide) (by decide)
      (by decide)).2 ["hello", "yes"]).1⟩

/-- C9 counterexample: identical prior data and identical raw text
"cattle" extract different usage types at different stages (livestock at
GREETING, nothing at LOCATION), because the usage-type keyword
classification runs only in the GREETING and USAGE_TYPE stages. -/
theorem extraction_stage_dependent_counterexample :
    (⟨{}, Stage.greeting⟩ : Session).data = (⟨{}, Stage.location⟩ : Session).data ∧
    (processUserInput ⟨{}, Stage.greeting⟩ "cattle").data.usageType = UsageType.livestock ∧
    (processUserInput ⟨{}, Stage.location⟩ "cattle").data.usageType = UsageType.unknown := by
  decide

/-- C9 (corrected: extraction as a whole is deterministic and
idempotent, but not stage-independent; the stage-independent part is the
custom-override extraction, and the usage-type classification and the
per-stage handlers read the stage): the custom-GPD and custom-head
extraction is idempotent, applying the custom-extraction block twice
equals applying it once, and the usage-type classification at a fixed
stage is idempotent. Determinism is immediate since the embedding is a
pure function of the message and the prior data. -/
theorem custom_extraction_idempotent :
    ∀ (d : CollectedData) (lm : List Char) (st : Stage),
      applyGpdExtract (applyGpdExtract d lm) lm = applyGpdExtract d lm ∧
      applyHeadExtract (applyHeadExtract d lm) lm = applyHeadExtract d lm ∧
      applyHeadExtract (applyGpdExtract (applyHeadExtract (applyGpdExtract d lm) lm) lm) lm
        = applyHeadExtract (applyGpdExtract d lm) lm ∧
      classifyUsage st (classifyUsage st d lm) lm = classifyUsage st d lm :=
  fun d lm st =>
    ⟨applyGpd_idem d lm, applyHead_idem d lm, customBlock_idem d lm,
      classifyUsage_idem st d lm⟩

/-- C1 (confirmed): for every catalog model whose maxHead is at least
the (nonnegative) TDH, findSuitablePump computes the deliverable flow at
TDH as the spec interpolation formula at a consecutive bracketing pair
of its curve, and the model is on the suitable list exactly when that
flow reaches requiredGPM; on the claimed curve and on the 4-stage
model's curve the flow at TDH = 70 is 4.5, so that model qualifies at
TDH = 70 exactly when requiredGPM is at most 4.5. -/
theorem curve_selector_interpolates :
    (∀ m ∈ pumpDataTable, ∀ gpm tdh : ℚ, 0 ≤ tdh → tdh ≤ m.maxHead →
      (∃ p1 p2, AdjPair m.flowRateByHead p1 p2 ∧ p1.head ≤ tdh ∧ tdh ≤ p2.head ∧
        flowAtHead m.flowRateByHead tdh = interpSpec p1 p2 tdh) ∧
      (mkEntry m tdh ∈ suitablePumps gpm tdh ↔ gpm ≤ flowAtHead m.flowRateByHead tdh)) ∧
    flowAtHead [⟨0, 5⟩, ⟨50, 5⟩, ⟨90, 4⟩, ⟨120, 3⟩] 70 = 4.5 ∧
    flowAtHead pump4S.flowRateByHead 70 = 4.5 ∧
    (∀ gpm : ℚ, mkEntry pump4S 70 ∈ suitablePumps gpm 70 ↔ gpm ≤ 4.5) := by
  have h45 : flowAtHead pump4S.flowRateByHead 70 = 4.5 := by
    norm_num [flowAtHead, pump4S]
  have hm4 : pump4S ∈ pumpDataTable := by simp [pumpDataTable]
  refine ⟨?_, by norm_num [flowAtHead], h45, ?_⟩
  · intro m hm gpm tdh h0 hle
    exact ⟨flowAtHead_eq_interp _ tdh (catalog_bracket m hm tdh h0 hle),
      mem_suitablePumps_iff hm hle⟩
  · intro gpm
    rw [mem_suitablePumps_iff hm4 (by norm_num [pump4S]), h45]

/-- C1 witness: the 4-stage model at TDH 70 against a 2 GPM demand. -/
theorem curve_selector_interpolates_witness :
    pump4S ∈ pumpDataTable ∧ (0 : ℚ) ≤ 70 ∧ (70 : ℚ) ≤ pump4S.maxHead ∧
    ((∃ p1 p2, AdjPair pump4S.flowRateByHead p1 p2 ∧ p1.head ≤ 70 ∧ (70 : ℚ) ≤ p2.head ∧
        flowAtHead pump4S.flowRateByHead 70 = interpSpec p1 p2 70) ∧
      (mkEntry pump4S 70 ∈ suitablePumps 2 70 ↔
        (2 : ℚ) ≤ flowAtHead pump4S.flowRateByHead 70)) :=
  ⟨by simp [pumpDataTable], by norm_num, by norm_num [pump4S],
    curve_selector_interpolates.1 pump4S (by simp [pumpDataTable]) 2 70 (by norm_num)
      (by norm_num [pump4S])⟩

/-- C4 (confirmed): whichever of the two selectors runs, the selected
pump occurs in the qualifying list, has the fewest stages among all
qualifying entries, and every strictly earlier qualifying entry has
strictly more stages, so stage-count ties go to the first entry in
catalog iteration order; and something is selected whenever a model
qualifies. -/
theorem fewest_stages_selected :
    (∀ gpm tdh : ℚ, ∀ e : SuitEntry, findSuitablePump gpm tdh = some e →
      ∃ i, (suitablePumps gpm tdh).get? i = some e ∧
        (∀ y ∈ suitablePumps gpm tdh, e.stages ≤ y.stages) ∧
        ∀ j, j < i → ∀ y, (suitablePumps gpm tdh).get? j = some y → e.stages < y.stages) ∧
    (∀ gpm tdh : ℚ, suitablePumps gpm tdh ≠ [] → ∃ e, findSuitablePump gpm tdh = some e) ∧
    (∀ gpm tdh : ℚ, ∀ m : PumpModel, selectLoop gpm tdh = some m →
      ∃ i, (flatSuitable gpm tdh).get? i = some m ∧
        (∀ y ∈ flatSuitable gpm tdh, m.stages ≤ y.stages) ∧
        ∀ j, j < i → ∀ y, (flatSuitable gpm tdh).get? j = some y → m.stages < y.stages) := by
  refine ⟨?_, ?_, ?_⟩
  · intro gpm tdh e he
    exact firstMinBy_spec _ e he
  · intro gpm tdh hne
    cases he : findSuitablePump gpm tdh with
    | none => exact absurd (eq_nil_of_firstMinBy_eq_none he) hne
    | some e => exact ⟨e, rfl⟩
  · intro gpm tdh m hm
    rw [selectLoop_eq_firstMinBy] at hm
    exact firstMinBy_spec _ m hm

/-- C4 witness: at 2 GPM and 100 feet both selectors pick the 3-stage
model, the fewest-stage qualifying one. -/
theorem fewest_stages_selected_witness :
    findSuitablePump 2 100 = some (mkEntry pump3S 100) ∧
    selectLoop 2 100 = some pump3S ∧
    (∃ i, (suitablePumps 2 100).get? i = some (mkEntry pump3S 100) ∧
      (∀ y ∈ suitablePumps 2 100, (mkEntry pump3S 100).stages ≤ y.stages) ∧
      ∀ j, j < i → ∀ y, (suitablePumps 2 100).get? j = some y →
        (mkEntry pump3S 100).stages < y.stages) ∧
    (∃ i, (flatSuitable 2 100).get? i = some pump3S ∧
      (∀ y ∈ flatSuitable 2 100, pump3S.stages ≤ y.stages) ∧
      ∀ j, j < i → ∀ y, (flatSuitable 2 100).get? j = some y →
        pump3S.stages < y.stages) := by
  have h1 : findSuitablePump 2 100 = some (mkEntry pump3S 100) := by
    norm_num [findSuitablePump, suitablePumps, suitableOver, pumpDataTable,
      pump1S, pump2S, pump3S, pump4S, pump5S, pump6S, flowAtHead, firstMinBy, mkEntry]
  have h2 : selectLoop 2 100 = some pump3S := by
    norm_num [selectLoop, pumpDataTable, pump1S, pump2S, pump3S, pump4S, pump5S, pump6S,
      minStep]
  exact ⟨h1, h2, fewest_stages_selected.1 2 100 _ h1, fewest_stages_selected.2.2 2 100 _ h2⟩

/-- C2 (confirmed): with sandy water the recommendation is always
invalid, in the code as imported and with the selection loop resolved to
the model table alike; and any reported casing size below 5 inches also
always yields an invalid result in the code as imported (a nonzero one
through the casing rejection, a zero one because the import binding
leaves no pump to select - with the table binding a zero casing size
would skip the truthiness-guarded check, see the C10 theorem). -/
theorem sandy_or_small_casing_never_valid :
    ∀ d : CollectedData,
      (d.sandyWater = true →
        (calculateRecommendationAsImported d).isValid = false ∧
        (calculateRecommendation d).isValid = false) ∧
      (∀ c : ℚ, d.wellCasingSize = some c → c < 5 →
        (calculateRecommendationAsImported d).isValid = false) ∧
      (∀ c : ℚ, d.wellCasingSize = some c → c ≠ 0 → c < 5 →
        (calculateRecommendation d).isValid = false) := by
  intro d
  refine ⟨fun hs => ⟨asImported_never_valid d, ?_⟩,
    fun c _ _ => asImported_never_valid d, fun c hc hne hlt => ?_⟩
  · unfold calculateRecommendation
    rw [if_pos hs]
    rfl
  · unfold calculateRecommendation
    by_cases hs : d.sandyWater = true
    · rw [if_pos hs]; rfl
    · rw [if_neg hs, if_pos ⟨by simp [truthyQ, hc, hne], by simp [hc, hlt]⟩]
      rfl

/-- C2 witness: sandy water with a 6-inch casing and 10-foot head is
rejected, and a 4-inch casing is rejected. -/
theorem sandy_or_small_casing_never_valid_witness :
    dSandy.sandyWater = true ∧
    (calculateRecommendationAsImported dSandy).isValid = false ∧
    (calculateRecommendation dSandy).isValid = false ∧
    dSmallCasing.wellCasingSize = some 4 ∧ (4 : ℚ) ≠ 0 ∧ (4 : ℚ) < 5 ∧
    (calculateRecommendationAsImported dSmallCasing).isValid = false ∧
    (calculateRecommendation dSmallCasing).isValid = false :=
  ⟨rfl,
    ((sandy_or_small_casing_never_valid dSandy).1 rfl).1,
    ((sandy_or_small_casing_never_valid dSandy).1 rfl).2,
    rfl, by norm_num, by norm_num,
    (sandy_or_small_casing_never_valid dSmallCasing).2.1 4 rfl (by norm_num),
    (sandy_or_small_casing_never_valid dSmallCasing).2.2 4 rfl (by norm_num) (by norm_num)⟩

/-- C3 (corrected: "provided" requires a nonzero value, because the code
tests customHead with JavaScript truthiness and a recorded 0 falls
through to the computed sum): the total dynamic head equals customHead
when it is present and nonzero, and otherwise equals static water level
plus drawdown plus elevation gain plus friction loss, with friction
0.02 x (pipeLength / pipeSize) x requiredGPM squared when both pipe
fields are nonzero and 0 otherwise. -/
theorem tdh_formula :
    ∀ (d : CollectedData) (gpm : ℚ),
      (∀ h : Nat, d.customHead = some h → h ≠ 0 → tdhOf d gpm = (h : ℚ)) ∧
      ((d.customHead = none ∨ d.customHead = some 0) →
        tdhOf d gpm =
          d.staticWaterLevel.getD 0 + d.drawdownLevel.getD 0 + d.elevationGain.getD 0 +
            (if d.pipeLength.getD 0 ≠ 0 ∧ d.pipeSize.getD 0 ≠ 0 then
              0.02 * (d.pipeLength.getD 0 / d.pipeSize.getD 0) * gpm ^ 2
            else 0)) := by
  intro d gpm
  constructor
  · intro h hch hne
    unfold tdhOf
    rw [hch]
    simp only [Option.getD_some]
    rw [if_pos (by exact_mod_cast hne)]
  · intro hch
    have hzero : ((d.customHead.getD 0 : Nat) : ℚ) = 0 := by
      rcases hch with h | h <;> rw [h] <;> norm_num
    unfold tdhOf
    rw [hzero, if_neg (by norm_num)]
    have hcond : (truthyQ d.pipeLength = true ∧ truthyQ d.pipeSize = true) ↔
        (d.pipeLength.getD 0 ≠ 0 ∧ d.pipeSize.getD 0 ≠ 0) := by
      simp [truthyQ]
    have hfr : calculateFrictionLoss gpm (d.pipeLength.getD 0) (d.pipeSize.getD 0)
        = 0.02 * (d.pipeLength.getD 0 / d.pipeSize.getD 0) * gpm ^ 2 := by
      unfold calculateFrictionLoss
      ring
    congr 1
    exact if_congr hcond hfr rfl

/-- C3 counterexample: customHead recorded as 0 with a 100-foot static
level and 10-foot drawdown gives a TDH of 110, not the provided 0. -/
theorem tdh_custom_zero_counterexample :
    dCustomHeadZero.customHead = some 0 ∧
    tdhOf dCustomHeadZero 0 = 110 ∧ (110 : ℚ) ≠ ((0 : Nat) : ℚ) := by
  refine ⟨rfl, ?_, by norm_num⟩
  norm_num [tdhOf, dCustomHeadZero, truthyQ]

/-- C3 witness: a nonzero customHead of 80 is taken verbatim, and with
no customHead the sum with pipe friction is produced. -/
theorem tdh_formula_witness :
    dCustomHead80.customHead = some 80 ∧ (80 : Nat) ≠ 0 ∧ tdhOf dCustomHead80 3 = 80 ∧
    (dPipes.customHead = none ∨ dPipes.customHead = some 0) ∧
    tdhOf dPipes 3 =
      dPipes.staticWaterLevel.getD 0 + dPipes.drawdownLevel.getD 0 +
        dPipes.elevationGain.getD 0 +
        (if dPipes.pipeLength.getD 0 ≠ 0 ∧ dPipes.pipeSize.getD 0 ≠ 0 then
          0.02 * (dPipes.pipeLength.getD 0 / dPipes.pipeSize.getD 0) * (3 : ℚ) ^ 2
        else 0) :=
  ⟨rfl, by norm_num, by exact_mod_cast (tdh_formula dCustomHead80 3).1 80 rfl (by norm_num),
    Or.inl rfl, (tdh_formula dPipes 3).2 (Or.inl rfl)⟩

/-- C7 (confirmed): the solar block computes power as stages times 53
watts, panel count as the ceiling of power over 100 (equivalently
(power + 99) / 100), bumps an odd count by one so the adjusted count is
always even, reports wattage as adjusted count times 100 and the wiring
as adjusted count over 2 series pairs; 3 stages give 159 W and 2 panels,
4 stages give 212 W, a raw count of 3 and an adjusted count of 4; and
every valid recommendation carries exactly these numbers. -/
theorem solar_config_formulas :
    (∀ s : Nat,
      (solarConfigOf s).powerRequired = s * 53 ∧
      (solarConfigOf s).panelsNeeded = (⌈((s * 53 : Nat) : ℚ) / 100⌉).toNat ∧
      (solarConfigOf s).panelsNeeded = (s * 53 + 99) / 100 ∧
      ((solarConfigOf s).panelsNeeded % 2 = 0 →
        (solarConfigOf s).adjustedPanels = (solarConfigOf s).panelsNeeded) ∧
      ((solarConfigOf s).panelsNeeded % 2 = 1 →
        (solarConfigOf s).adjustedPanels = (solarConfigOf s).panelsNeeded + 1) ∧
      (solarConfigOf s).adjustedPanels % 2 = 0 ∧
      (solarConfigOf s).wattage = (solarConfigOf s).adjustedPanels * 100 ∧
      (solarConfigOf s).seriesPairs * 2 = (solarConfigOf s).adjustedPanels) ∧
    solarConfigOf 3 = ⟨159, 2, 2, 200, 1⟩ ∧
    solarConfigOf 4 = ⟨212, 3, 4, 400, 2⟩ ∧
    (∀ (d : CollectedData) (r : ValidRec), calculateRecommendation d = RecResult.valid r →
      r.powerRequired = r.stages * 53 ∧ r.panelsNeeded = (r.stages * 53 + 99) / 100 ∧
      r.adjustedPanels % 2 = 0 ∧ r.wattage = r.adjustedPanels * 100 ∧
      r.seriesPairs * 2 = r.adjustedPanels) := by
  have hgen : ∀ s : Nat,
      (solarConfigOf s).powerRequired = s * 53 ∧
      (solarConfigOf s).panelsNeeded = (⌈((s * 53 : Nat) : ℚ) / 100⌉).toNat ∧
      (solarConfigOf s).panelsNeeded = (s * 53 + 99) / 100 ∧
      ((solarConfigOf s).panelsNeeded % 2 = 0 →
        (solarConfigOf s).adjustedPanels = (solarConfigOf s).panelsNeeded) ∧
      ((solarConfigOf s).panelsNeeded % 2 = 1 →
        (solarConfigOf s).adjustedPanels = (solarConfigOf s).panelsNeeded + 1) ∧
      (solarConfigOf s).adjustedPanels % 2 = 0 ∧
      (solarConfigOf s).wattage = (solarConfigOf s).adjustedPanels * 100 ∧
      (solarConfigOf s).seriesPairs * 2 = (solarConfigOf s).adjustedPanels := by
    intro s
    have hadj : (solarConfigOf s).adjustedPanels =
        if (solarConfigOf s).panelsNeeded % 2 = 0 then (solarConfigOf s).panelsNeeded
        else (solarConfigOf s).panelsNeeded + 1 := rfl
    have heven : (solarConfigOf s).adjustedPanels % 2 = 0 := by
      rw [hadj]
      split_ifs with h
      · exact h
      · omega
    refine ⟨rfl, rfl, ceil_div_hundred_toNat (s * 53),
      fun h => by rw [hadj, if_pos h], fun h => by rw [hadj, if_neg (by omega)],
      heven, rfl, ?_⟩
    show (solarConfigOf s).adjustedPanels / 2 * 2 = (solarConfigOf s).adjustedPanels
    exact Nat.div_mul_cancel (Nat.dvd_of_mod_eq_zero heven)
  have h3 : solarConfigOf 3 = ⟨159, 2, 2, 200, 1⟩ := by
    simp only [solarConfigOf]
    rw [ceil_div_hundred_toNat]
    rfl
  have h4 : solarConfigOf 4 = ⟨212, 3, 4, 400, 2⟩ := by
    simp only [solarConfigOf]
    rw [ceil_div_hundred_toNat]
    rfl
  refine ⟨hgen, h3, h4, ?_⟩
  intro d r hr
  simp only [calculateRecommendation] at hr
  split_ifs at hr with h1 h2
  rcases hsel : selectLoop (calculateWaterRequirements d).requiredGPM
      (tdhOf d (calculateWaterRequirements d).requiredGPM) with _ | m
  · rw [hsel] at hr
    exact RecResult.noConfusion hr
  · rw [hsel] at hr
    rw [RecResult.valid.injEq] at hr
    obtain ⟨g1, g2, g3, g4, g5, g6, g7, g8⟩ := hgen m.stages
    refine ⟨?_, ?_, ?_, ?_, ?_⟩ <;> rw [← hr]
    · exact g1
    · exact g3
    · exact g6
    · exact g7
    · exact g8

/-- C7 witness: both parity branches of the panel bump and a concrete
valid recommendation with 2 stages, 106 W and 2 panels. -/
theorem solar_config_formulas_witness :
    (solarConfigOf 3).panelsNeeded % 2 = 0 ∧
    (solarConfigOf 3).adjustedPanels = (solarConfigOf 3).panelsNeeded ∧
    (solarConfigOf 4).panelsNeeded % 2 = 1 ∧
    (solarConfigOf 4).adjustedPanels = (solarConfigOf 4).panelsNeeded + 1 ∧
    calculateRecommendation dNoCasing = RecResult.valid rNoCasing ∧
    rNoCasing.powerRequired = rNoCasing.stages * 53 ∧
    rNoCasing.panelsNeeded = (rNoCasing.stages * 53 + 99) / 100 ∧
    rNoCasing.adjustedPanels % 2 = 0 ∧
    rNoCasing.wattage = rNoCasing.adjustedPanels * 100 ∧
    rNoCasing.seriesPairs * 2 = rNoCasing.adjustedPanels := by
  have hpn3 : (solarConfigOf 3).panelsNeeded = 2 := ceil_div_hundred_toNat (3 * 53)
  have hpn4 : (solarConfigOf 4).panelsNeeded = 3 := ceil_div_hundred_toNat (4 * 53)
  have hmod3 : (solarConfigOf 3).panelsNeeded % 2 = 0 := by rw [hpn3]
  have hmod4 : (solarConfigOf 4).panelsNeeded % 2 = 1 := by rw [hpn4]
  exact ⟨hmod3, (solar_config_formulas.1 3).2.2.2.1 hmod3, hmod4,
    (solar_config_formulas.1 4).2.2.2.2.1 hmod4, calcRec_dNoCasing,
    (solar_config_formulas.2.2.2 dNoCasing rNoCasing calcRec_dNoCasing)⟩

/-- C8 (corrected: an irrigation area recorded as 0 or absent is
replaced by 1 acre by the code, so the product formula holds for the
substituted area, not for the recorded 0): for irrigation sessions
without a custom GPD the daily demand is base rate times area times crop
multiplier with the recorded area when it is nonzero and 1 otherwise,
with base rates drip 600, sprinkler 1200, flood 2400, default 1200, and
crop multipliers vegetables 1.2, fruits 1.0, lawn 1.5, default 1.0. -/
theorem irrigation_demand_formula :
    ∀ d : CollectedData, d.usageType = UsageType.irrigation →
      truthyN d.customGPD = false →
      (calculateWaterRequirements d).dailyGallons =
        irrigationBaseRate d.irrigationMethod *
          (if d.irrigationArea.getD 0 ≠ 0 then d.irrigationArea.getD 0 else 1) *
          cropMultiplier d.cropCategory ∧
      (calculateWaterRequirements d).requiredGPM =
        (calculateWaterRequirements d).dailyGallons / 324 ∧
      irrigationBaseRate (some "drip") = 600 ∧
      irrigationBaseRate (some "flood") = 2400 ∧
      (∀ o : Option String, o ≠ some "drip" → o ≠ some "flood" →
        irrigationBaseRate o = 1200) ∧
      cropMultiplier (some "vegetables") = 1.2 ∧
      cropMultiplier (some "lawn") = 1.5 ∧
      (∀ o : Option String, o ≠ some "vegetables" → o ≠ some "lawn" →
        cropMultiplier o = 1) := by
  intro d hu hg
  refine ⟨?_, ?_, rfl, rfl, ?_, rfl, rfl, ?_⟩
  · unfold calculateWaterRequirements
    rw [hu]
    simp only [hg, Bool.false_eq_true, if_false]
    have hcond : (truthyQ d.irrigationArea = true) ↔ (d.irrigationArea.getD 0 ≠ 0) := by
      simp [truthyQ]
    rw [if_congr hcond rfl rfl]
  · unfold calculateWaterRequirements
    norm_num
  · intro o h1 h2
    unfold irrigationBaseRate
    rw [if_neg h1, if_neg h2]
  · intro o h1 h2
    unfold cropMultiplier
    rw [if_neg h1]
    by_cases hf : o = some "fruits"
    · rw [if_pos hf]
    · rw [if_neg hf, if_neg h2]

/-- C8 counterexample: irrigation over a recorded area of 0 acres with
drip and vegetables yields 720 gallons per day (the code substitutes 1
acre), not the 0 the claimed formula gives at area 0. -/
theorem irrigation_zero_area_counterexample :
    dIrrZero.usageType = UsageType.irrigation ∧
    dIrrZero.customGPD = none ∧
    dIrrZero.irrigationArea = some 0 ∧
    (calculateWaterRequirements dIrrZero).dailyGallons = 720 ∧
    (720 : ℚ) ≠ 600 * 0 * 1.2 := by
  refine ⟨rfl, rfl, rfl, ?_, by norm_num⟩
  norm_num [calculateWaterRequirements, dIrrZero, truthyN, truthyQ,
    show irrigationBaseRate (some "drip") = 600 from rfl,
    show cropMultiplier (some "vegetables") = 1.2 from rfl]

/-- C8 witness: 2 acres of flood-irrigated lawn give 2400 x 2 x 1.5 =
7200 gallons per day. -/
theorem irrigation_demand_formula_witness :
    dIrrTwo.usageType = UsageType.irrigation ∧
    truthyN dIrrTwo.customGPD = false ∧
    (calculateWaterRequirements dIrrTwo).dailyGallons =
      irrigationBaseRate dIrrTwo.irrigationMethod *
        (if dIrrTwo.irrigationArea.getD 0 ≠ 0 then dIrrTwo.irrigationArea.getD 0 else 1) *
        cropMultiplier dIrrTwo.cropCategory ∧
    (calculateWaterRequirements dIrrTwo).dailyGallons = 7200 := by
  refine ⟨rfl, rfl, (irrigation_demand_formula dIrrTwo rfl rfl).1, ?_⟩
  norm_num [calculateWaterRequirements, dIrrTwo, truthyN, truthyQ,
    show irrigationBaseRate (some "flood") = 2400 from rfl,
    show cropMultiplier (some "lawn") = 1.5 from rfl]

/-- C10 (code_bug in the source): the selection loop of
calculateRecommendation is written against the pump model table, and
with that binding an input with no recorded casing size and no sandy
water can reach a valid recommendation even though the casing was never
confirmed; but part_000 line 11 binds pumpData to the module export
object of pumpData.js, whose two enumerated properties never pass the
qualification test, so as imported nothing is ever selected and the same
input ends in the no-suitable-pump rejection instead. -/
theorem import_binding_no_pump_selected :
    (∀ gpm tdh : ℚ, selectLoopImported gpm tdh = none) ∧
    (∀ d : CollectedData, (calculateRecommendationAsImported d).isValid = false) ∧
    dNoCasing.wellCasingSize = none ∧ dNoCasing.sandyWater = false ∧
    calculateRecommendation dNoCasing = RecResult.valid rNoCasing ∧
    calculateRecommendationAsImported dNoCasing = RecResult.invalid noPumpMessage := by
  refine ⟨fun gpm tdh => rfl, asImported_never_valid, rfl, rfl, calcRec_dNoCasing, ?_⟩
  norm_num [calculateRecommendationAsImported, selectLoopImported, requireWrapperEntries,
    jsGE, dNoCasing, truthyN, truthyQ, calculateWaterRequirements, tdhOf]

end SolarPump
